import Mathlib

/-!
# Verification of the swim-score core (`src/pages/api/swimscore.ts`)

Shallow embedding of the scoring pipeline of the weather-vision repository.
JavaScript numbers are modelled as exact rationals (`ℚ`); all thresholds and
score adjustments in the source are integer or decimal literals, so every
comparison and the weighted aggregation are exact on `ℚ`.  Sub-scores are
integers (`ℤ`): the scorers start from an integer base and add integer
adjustments.  `Math.round` is round-half-up (`⌊x + 1/2⌋`), matching JS on the
non-negative values that arise here.  `Math.max(x, 0)` is `max x 0`.
-/

/-- The twelve input fields of `SwimInputs` (swimscore.ts lines 8–21).
Eleven numeric fields and the string `weatherCode`. -/
structure SwimInputs where
  windSpeed : ℚ
  windGust : ℚ
  windDirection : ℚ
  weatherCode : String
  precipAmount : ℚ
  precipLast24h : ℚ
  visibility : ℚ
  airQualityIndex : ℚ
  uvIndex : ℚ
  cloudCover : ℚ
  apparentTemp : ℚ
  sst : ℚ
  deriving DecidableEq

/-- JS `hay.includes(pat)`: `pat` occurs as a contiguous substring of `hay`. -/
def strIncludes (hay pat : String) : Bool :=
  decide (pat.data <:+: hay.data)

/-- The storm test used at swimscore.ts lines 77, 134 and 236:
`String(weatherCode).includes('thunderstorm') || weatherCode === '95'`. -/
def isStormCode (code : String) : Bool :=
  strIncludes code "thunderstorm" || code == "95"

/-- Wind band of `calcSafety` (lines 241–244). -/
def safetyWindAdj (windSpeed : ℚ) : ℤ :=
  if windSpeed ≥ 30 then -20
  else if windSpeed ≥ 25 then -15
  else if windSpeed ≥ 20 then -10
  else if windSpeed ≥ 15 then -5
  else 0

/-- Precipitation band of `calcSafety` (lines 247–249). -/
def safetyPrecipAdj (precipAmount precipLast24h : ℚ) : ℤ :=
  if precipAmount ≥ 15 ∨ precipLast24h ≥ 50 then -15
  else if precipAmount ≥ 10 ∨ precipLast24h ≥ 30 then -10
  else if precipAmount ≥ 5 ∨ precipLast24h ≥ 15 then -5
  else 0

/-- Visibility band of `calcSafety` (lines 252–254). -/
def safetyVisAdj (visibility : ℚ) : ℤ :=
  if visibility < 500 then -15
  else if visibility < 1000 then -10
  else if visibility < 3000 then -5
  else 0

/-- Sea-surface-temperature band of `calcSafety` (lines 257–260). -/
def safetySstAdj (sst : ℚ) : ℤ :=
  if sst < 15 then -20
  else if sst < 18 then -15
  else if sst > 32 then -10
  else if sst > 30 then -5
  else 0

/-- Air-quality band of `calcSafety` (lines 263–264). -/
def safetyAqiAdj (airQualityIndex : ℚ) : ℤ :=
  if airQualityIndex ≥ 150 then -10
  else if airQualityIndex ≥ 100 then -5
  else 0

/-- `calcSafety` (swimscore.ts lines 230–267).  The three leading guards
short-circuit; otherwise the five band deductions apply to the base 60 and the
result is floored at 0 by `Math.max(score, 0)`. -/
def calcSafety (i : SwimInputs) : ℤ :=
  if isStormCode i.weatherCode then 5
  else if i.windSpeed ≥ 50 ∨ i.windGust ≥ 60 then 8
  else if i.windSpeed ≥ 40 ∨ i.windGust ≥ 50 then 12
  else
    max (60 + safetyWindAdj i.windSpeed
           + safetyPrecipAdj i.precipAmount i.precipLast24h
           + safetyVisAdj i.visibility
           + safetySstAdj i.sst
           + safetyAqiAdj i.airQualityIndex) 0

/-- Apparent-temperature band of `calcComfort` (lines 277–282). -/
def comfortTempAdj (apparentTemp : ℚ) : ℤ :=
  if apparentTemp > 42 then -15
  else if apparentTemp > 38 then -10
  else if apparentTemp > 35 then -5
  else if apparentTemp ≥ 24 ∧ apparentTemp ≤ 32 then 5
  else if apparentTemp < 18 then -15
  else if apparentTemp < 22 then -8
  else 0

/-- UV band of `calcComfort` (lines 285–288). -/
def comfortUvAdj (uvIndex : ℚ) : ℤ :=
  if uvIndex ≥ 11 then -12
  else if uvIndex ≥ 9 then -8
  else if uvIndex ≥ 7 then -5
  else if uvIndex ≥ 3 ∧ uvIndex ≤ 6 then 2
  else 0

/-- Cloud-cover band of `calcComfort` (lines 291–293). -/
def comfortCloudAdj (cloudCover : ℚ) : ℤ :=
  if cloudCover ≥ 20 ∧ cloudCover ≤ 70 then 3
  else if cloudCover > 95 then -5
  else if cloudCover < 10 then -2
  else 0

/-- Sea-temperature band of `calcComfort` (lines 296–298). -/
def comfortSstAdj (sst : ℚ) : ℤ :=
  if sst ≥ 24 ∧ sst ≤ 28 then 8
  else if sst ≥ 22 ∧ sst ≤ 30 then 3
  else if sst < 20 ∨ sst > 31 then -8
  else 0

/-- Rain discomfort of `calcComfort` (line 301). -/
def comfortPrecipAdj (precipAmount : ℚ) : ℤ :=
  if precipAmount > 5 then -5 else 0

/-- Wind discomfort of `calcComfort` (lines 304–305). -/
def comfortWindAdj (windSpeed : ℚ) : ℤ :=
  if windSpeed > 25 then -5
  else if windSpeed > 20 then -3
  else 0

/-- `calcComfort` (swimscore.ts lines 272–308): base 35, six independent
band adjustments, floored at 0. -/
def calcComfort (i : SwimInputs) : ℤ :=
  max (35 + comfortTempAdj i.apparentTemp
         + comfortUvAdj i.uvIndex
         + comfortCloudAdj i.cloudCover
         + comfortSstAdj i.sst
         + comfortPrecipAdj i.precipAmount
         + comfortWindAdj i.windSpeed) 0

/-- Wind band of `calcPerformance` (lines 318–322). -/
def perfWindAdj (windSpeed : ℚ) : ℤ :=
  if windSpeed < 5 then 2
  else if windSpeed ≥ 10 ∧ windSpeed < 15 then -3
  else if windSpeed ≥ 15 ∧ windSpeed < 20 then -5
  else if windSpeed ≥ 20 ∧ windSpeed < 25 then -8
  else if windSpeed ≥ 25 then -12
  else 0

/-- Sea-temperature band of `calcPerformance` (lines 325–328). -/
def perfSstAdj (sst : ℚ) : ℤ :=
  if sst ≥ 22 ∧ sst ≤ 26 then 5
  else if sst ≥ 20 ∧ sst ≤ 28 then 2
  else if sst < 18 ∨ sst > 30 then -8
  else if sst < 20 ∨ sst > 28 then -4
  else 0

/-- Air-quality band of `calcPerformance` (lines 331–334). -/
def perfAqiAdj (airQualityIndex : ℚ) : ℤ :=
  if airQualityIndex < 25 then 2
  else if airQualityIndex ≥ 50 ∧ airQualityIndex < 100 then -2
  else if airQualityIndex ≥ 100 ∧ airQualityIndex < 150 then -6
  else if airQualityIndex ≥ 150 then -10
  else 0

/-- Apparent-temperature band of `calcPerformance` (lines 337–339). -/
def perfTempAdj (apparentTemp : ℚ) : ℤ :=
  if apparentTemp ≥ 26 ∧ apparentTemp ≤ 30 then 3
  else if apparentTemp > 35 then -6
  else if apparentTemp < 20 then -4
  else 0

/-- Visibility band of `calcPerformance` (lines 342–343). -/
def perfVisAdj (visibility : ℚ) : ℤ :=
  if visibility < 2000 then -10
  else if visibility < 5000 then -5
  else 0

/-- Cloud-cover band of `calcPerformance` (line 346). -/
def perfCloudAdj (cloudCover : ℚ) : ℤ :=
  if cloudCover ≥ 30 ∧ cloudCover ≤ 70 then 2 else 0

/-- `calcPerformance` (swimscore.ts lines 313–349): base 25, six independent
band adjustments, floored at 0. -/
def calcPerformance (i : SwimInputs) : ℤ :=
  max (25 + perfWindAdj i.windSpeed
         + perfSstAdj i.sst
         + perfAqiAdj i.airQualityIndex
         + perfTempAdj i.apparentTemp
         + perfVisAdj i.visibility
         + perfCloudAdj i.cloudCover) 0

/-- JS `Math.round` on the values arising here: round half up. -/
def jsRound (q : ℚ) : ℤ := ⌊q + 1/2⌋

/-- The aggregation at swimscore.ts lines 201–205: if safety ≤ 10 the total is
the safety score; otherwise `Math.round(safety*0.5 + comfort*0.3 + performance*0.2)`. -/
def aggregateTotal (safety comfort performance : ℤ) : ℤ :=
  if safety ≤ 10 then safety
  else jsRound ((safety : ℚ) * 0.5 + (comfort : ℚ) * 0.3 + (performance : ℚ) * 0.2)

/-- The three summary banners of `buildExplanation` (lines 117–123). -/
def positiveBanner : String := "🏊 Ideal conditions for a swim!"

def cautiousBanner : String := "🤔 Moderate conditions; swim with caution."

def negativeBanner : String := "🚫 Conditions not recommended for swimming."

/-- The banner chosen at swimscore.ts lines 117–123, by total-score thresholds
80 and 50. -/
def summaryBanner (total : ℤ) : String :=
  if total ≥ 80 then positiveBanner
  else if total ≥ 50 then cautiousBanner
  else negativeBanner

/-- `buildExplanation` (swimscore.ts lines 44–126).  The pushes are modelled as
list concatenation in source order; the final `unshift` prepends the summary
banner. -/
def buildExplanation (safety comfort performance : ℤ) (inputs : SwimInputs)
    (total : ℤ) : List String :=
  summaryBanner total ::
    ((if safety < 20 then
        ["⚠️ Safety score is critically low (" ++ toString safety ++ "/100)"]
      else if safety < 40 then
        ["⚠️ Safety concerns present (score: " ++ toString safety ++ "/100)"]
      else []) ++
     (if comfort < 20 then
        ["😣 Comfort conditions are poor (score: " ++ toString comfort ++ "/100)"]
      else if comfort > 80 then
        ["😊 Excellent comfort conditions (score: " ++ toString comfort ++ "/100)"]
      else []) ++
     (if performance < 20 then
        ["🏃 Performance conditions are challenging (score: " ++ toString performance ++ "/100)"]
      else []) ++
     (if isStormCode inputs.weatherCode then
        ["⚡ DANGER: Thunderstorm activity detected - do not enter water"]
      else []) ++
     (if inputs.windSpeed ≥ 40 then
        ["🌬️ Strong winds reduce safety for swimmers"]
      else []) ++
     (if inputs.sst < 15 then
        ["❄️ Water too cold (<15 °C) - risk of hypothermia"]
      else []) ++
     (if inputs.precipAmount ≥ 10 ∨ inputs.precipLast24h ≥ 30 then
        ["🌧️ Heavy precipitation may reduce visibility and safety"]
      else []) ++
     (if inputs.visibility < 1000 then
        ["⚠️ Low visibility (<1 km) is unsafe for water activities"]
      else []) ++
     (if inputs.airQualityIndex ≥ 150 then
        ["😷 Poor air quality (AQI ≥ 150) - consider wearing a mask"]
      else []) ++
     (if inputs.apparentTemp > 38 then
        ["🔥 Very hot air temperature (> 38 °C) may be uncomfortable"]
      else if inputs.apparentTemp < 18 then
        ["🥶 Chilly air temperature (< 18 °C) may be uncomfortable"]
      else []) ++
     (if inputs.uvIndex ≥ 11 then
        ["🧴 Extreme UV levels (UV ≥ 11) - apply SPF 30+ sunscreen"]
      else if inputs.uvIndex ≥ 9 then
        ["☀️ High UV (UV ≥ 9) - apply sunscreen and limit exposure"]
      else []) ++
     (if inputs.windSpeed > 20 ∧ inputs.apparentTemp < 26 then
        ["🌬️ Wind chill may make you feel colder when wet"]
      else []) ++
     (if inputs.cloudCover < 20 ∧ inputs.uvIndex ≥ 6 then
        ["😎 Clear skies + UV ≥ 6 - bring shade and protective gear"]
      else []))

/-- `getRecommendation` (swimscore.ts lines 132–147): ordered guard clauses,
first match wins. -/
def getRecommendation (total : ℤ) (inputs : SwimInputs) : String :=
  if isStormCode inputs.weatherCode then
    "DANGER: Do not swim - thunderstorm activity detected!"
  else if inputs.windSpeed ≥ 40 then
    "Unsafe: Extreme wind conditions - avoid swimming."
  else if inputs.sst < 15 then
    "Unsafe: Water temperature too cold - risk of hypothermia."
  else if total ≥ 80 then "Go ahead! Enjoy your swim."
  else if total ≥ 50 then "Consider caution: check current conditions."
  else "Not recommended: unsafe to swim."

/-- `getBestTimeToSwim` (swimscore.ts lines 152–155). -/
def getBestTimeToSwim (inputs : SwimInputs) : String :=
  if inputs.precipAmount > 0 then "Rainy – No best time."
  else "Afternoon (2 PM – 4 PM)"

/-- The sub-score breakdown of `SwimScoreOutput` (lines 30–34). -/
structure ScoreBreakdown where
  safety : ℤ
  comfort : ℤ
  performance : ℤ

/-- `SwimScoreOutput` (swimscore.ts lines 28–38). -/
structure SwimScoreOutput where
  totalScore : ℤ
  breakdown : ScoreBreakdown
  explanation : List String
  recommendation : String
  bestTimeToSwim : String

/-- The scoring path of `handler` (swimscore.ts lines 196–218): the pure
`computeSwimScore` operation of the spec. -/
def computeSwimScore (inputs : SwimInputs) : SwimScoreOutput :=
  let safety := calcSafety inputs
  let comfort := calcComfort inputs
  let performance := calcPerformance inputs
  let total := aggregateTotal safety comfort performance
  { totalScore := total
    breakdown := ⟨safety, comfort, performance⟩
    explanation := buildExplanation safety comfort performance inputs total
    recommendation := getRecommendation total inputs
    bestTimeToSwim := getBestTimeToSwim inputs }

/-- Untyped JSON-like values, for the `validateInputs` boundary check.
`jsTypeof` mirrors the JS `typeof` operator on them (in particular
`typeof null = "object"` and arrays are `"object"`). -/
inductive JSValue where
  | vnull
  | vbool (b : Bool)
  | vnum (q : ℚ)
  | vstr (s : String)
  | varr (elems : List JSValue)
  | vobj (fields : List (String × JSValue))

/-- JS `typeof`. -/
def jsTypeof : JSValue → String
  | .vnull => "object"
  | .vbool _ => "boolean"
  | .vnum _ => "number"
  | .vstr _ => "string"
  | .varr _ => "object"
  | .vobj _ => "object"

/-- `data === null`. -/
def isNullValue : JSValue → Bool
  | .vnull => true
  | _ => false

/-- Property read `obj[k]`: first matching key of an object, otherwise absent. -/
def jsGet : JSValue → String → Option JSValue
  | .vobj fields, k => fields.lookup k
  | _, _ => none

/-- `typeof obj[k]`: `"undefined"` when the property is absent. -/
def jsTypeofField (d : JSValue) (k : String) : String :=
  match jsGet d k with
  | some v => jsTypeof v
  | none => "undefined"

/-- `validateInputs` (swimscore.ts lines 160–178): the non-object/null guard,
then twelve `typeof` checks. -/
def validateInputs (d : JSValue) : Bool :=
  if jsTypeof d != "object" || isNullValue d then false
  else
    jsTypeofField d "windSpeed" == "number" &&
    jsTypeofField d "windGust" == "number" &&
    jsTypeofField d "windDirection" == "number" &&
    jsTypeofField d "weatherCode" == "string" &&
    jsTypeofField d "precipAmount" == "number" &&
    jsTypeofField d "precipLast24h" == "number" &&
    jsTypeofField d "visibility" == "number" &&
    jsTypeofField d "airQualityIndex" == "number" &&
    jsTypeofField d "uvIndex" == "number" &&
    jsTypeofField d "cloudCover" == "number" &&
    jsTypeofField d "apparentTemp" == "number" &&
    jsTypeofField d "sst" == "number"

/-- A field is present with primitive kind `kind` — the condition the spec
states for each of the twelve fields ("present with the correct primitive
kind"). -/
def specFieldKind (fields : List (String × JSValue)) (k kind : String) : Prop :=
  ∃ v, fields.lookup k = some v ∧ jsTypeof v = kind

/-- The validator contract as the spec words it: a non-null object whose
twelve named fields are all present with the correct primitive kind (eleven
numbers, `weatherCode` a string). -/
def specValidInputs (d : JSValue) : Prop :=
  ∃ fields, d = JSValue.vobj fields ∧
    specFieldKind fields "windSpeed" "number" ∧
    specFieldKind fields "windGust" "number" ∧
    specFieldKind fields "windDirection" "number" ∧
    specFieldKind fields "weatherCode" "string" ∧
    specFieldKind fields "precipAmount" "number" ∧
    specFieldKind fields "precipLast24h" "number" ∧
    specFieldKind fields "visibility" "number" ∧
    specFieldKind fields "airQualityIndex" "number" ∧
    specFieldKind fields "uvIndex" "number" ∧
    specFieldKind fields "cloudCover" "number" ∧
    specFieldKind fields "apparentTemp" "number" ∧
    specFieldKind fields "sst" "number"

/-- The narrowing `data as SwimInputs` performed by `handler` after
validation succeeds (line 194): read the twelve properties. -/
def jsToInputs (d : JSValue) : Option SwimInputs :=
  match jsGet d "windSpeed", jsGet d "windGust", jsGet d "windDirection",
      jsGet d "weatherCode", jsGet d "precipAmount", jsGet d "precipLast24h",
      jsGet d "visibility", jsGet d "airQualityIndex", jsGet d "uvIndex",
      jsGet d "cloudCover", jsGet d "apparentTemp", jsGet d "sst" with
  | some (.vnum ws), some (.vnum wg), some (.vnum wd), some (.vstr wc),
    some (.vnum pa), some (.vnum p24), some (.vnum vis), some (.vnum aqi),
    some (.vnum uv), some (.vnum cc), some (.vnum tp), some (.vnum st) =>
      some ⟨ws, wg, wd, wc, pa, p24, vis, aqi, uv, cc, tp, st⟩
  | _, _, _, _, _, _, _, _, _, _, _, _ => none

/-- Scenario A of the spec (§8): `weatherCode = "95"`, all other fields
normal. -/
def scenarioA : SwimInputs :=
  { windSpeed := 10, windGust := 12, windDirection := 0, weatherCode := "95"
    precipAmount := 0, precipLast24h := 0, visibility := 10000
    airQualityIndex := 20, uvIndex := 5, cloudCover := 40
    apparentTemp := 27, sst := 26 }

/-- Scenario B of the spec (§8): the "ideal" input. -/
def scenarioB : SwimInputs :=
  { windSpeed := 8, windGust := 10, windDirection := 0, weatherCode := "0"
    precipAmount := 0, precipLast24h := 0, visibility := 10000
    airQualityIndex := 20, uvIndex := 5, cloudCover := 40
    apparentTemp := 27, sst := 26 }

/-- Scenario C of the spec (§8): cold water, otherwise calm. -/
def scenarioC : SwimInputs :=
  { windSpeed := 5, windGust := 10, windDirection := 0, weatherCode := "0"
    precipAmount := 0, precipLast24h := 0, visibility := 10000
    airQualityIndex := 20, uvIndex := 5, cloudCover := 40
    apparentTemp := 27, sst := 12 }

/-- An extreme-wind but otherwise calm input (windSpeed 45). -/
def windyInput : SwimInputs :=
  { windSpeed := 45, windGust := 45, windDirection := 0, weatherCode := "0"
    precipAmount := 0, precipLast24h := 0, visibility := 10000
    airQualityIndex := 20, uvIndex := 5, cloudCover := 40
    apparentTemp := 27, sst := 26 }

/-- An input with safety = 12 (wind short-circuit), comfort = 15 and
performance = 9, whose weighted total rounds back to exactly 12. -/
def coincidenceInput : SwimInputs :=
  { windSpeed := 40, windGust := 45, windDirection := 0, weatherCode := "0"
    precipAmount := 0, precipLast24h := 0, visibility := 10000
    airQualityIndex := 60, uvIndex := 0, cloudCover := 15
    apparentTemp := 17, sst := 21 }

/-- A payload whose fields all have the right primitive kinds but violate the
documented value ranges: negative wind and precipitation, `windDirection`
outside 0–360, `cloudCover` outside 0–100. -/
def outOfRangePayload : JSValue :=
  JSValue.vobj
    [("windSpeed", .vnum (-5)), ("windGust", .vnum (-2)),
     ("windDirection", .vnum 400), ("weatherCode", .vstr "0"),
     ("precipAmount", .vnum (-3)), ("precipLast24h", .vnum (-1)),
     ("visibility", .vnum 10000), ("airQualityIndex", .vnum 20),
     ("uvIndex", .vnum 5), ("cloudCover", .vnum 150),
     ("apparentTemp", .vnum 27), ("sst", .vnum 26)]

/-- The `SwimInputs` record denoted by `outOfRangePayload`. -/
def outOfRangeInputs : SwimInputs :=
  { windSpeed := -5, windGust := -2, windDirection := 400, weatherCode := "0"
    precipAmount := -3, precipLast24h := -1, visibility := 10000
    airQualityIndex := 20, uvIndex := 5, cloudCover := 150
    apparentTemp := 27, sst := 26 }

/-! ## Bounds of the individual band adjustments -/

theorem safetyWindAdj_le (w : ℚ) : safetyWindAdj w ≤ 0 := by
  unfold safetyWindAdj; split_ifs <;> decide

theorem safetyPrecipAdj_le (pa p24 : ℚ) : safetyPrecipAdj pa p24 ≤ 0 := by
  unfold safetyPrecipAdj; split_ifs <;> decide

theorem safetyVisAdj_le (v : ℚ) : safetyVisAdj v ≤ 0 := by
  unfold safetyVisAdj; split_ifs <;> decide

theorem safetySstAdj_le (s : ℚ) : safetySstAdj s ≤ 0 := by
  unfold safetySstAdj; split_ifs <;> decide

theorem safetyAqiAdj_le (a : ℚ) : safetyAqiAdj a ≤ 0 := by
  unfold safetyAqiAdj; split_ifs <;> decide

theorem comfortTempAdj_le (t : ℚ) : comfortTempAdj t ≤ 5 := by
  unfold comfortTempAdj; split_ifs <;> decide

theorem comfortUvAdj_le (u : ℚ) : comfortUvAdj u ≤ 2 := by
  unfold comfortUvAdj; split_ifs <;> decide

theorem comfortCloudAdj_le (c : ℚ) : comfortCloudAdj c ≤ 3 := by
  unfold comfortCloudAdj; split_ifs <;> decide

theorem comfortSstAdj_le (s : ℚ) : comfortSstAdj s ≤ 8 := by
  unfold comfortSstAdj; split_ifs <;> decide

theorem comfortPrecipAdj_le (p : ℚ) : comfortPrecipAdj p ≤ 0 := by
  unfold comfortPrecipAdj; split_ifs <;> decide

theorem comfortWindAdj_le (w : ℚ) : comfortWindAdj w ≤ 0 := by
  unfold comfortWindAdj; split_ifs <;> decide

theorem perfWindAdj_le (w : ℚ) : perfWindAdj w ≤ 2 := by
  unfold perfWindAdj; split_ifs <;> decide

theorem perfSstAdj_le (s : ℚ) : perfSstAdj s ≤ 5 := by
  unfold perfSstAdj; split_ifs <;> decide

theorem perfAqiAdj_le (a : ℚ) : perfAqiAdj a ≤ 2 := by
  unfold perfAqiAdj; split_ifs <;> decide

theorem perfTempAdj_le (t : ℚ) : perfTempAdj t ≤ 3 := by
  unfold perfTempAdj; split_ifs <;> decide

theorem perfVisAdj_le (v : ℚ) : perfVisAdj v ≤ 0 := by
  unfold perfVisAdj; split_ifs <;> decide

theorem perfCloudAdj_le (c : ℚ) : perfCloudAdj c ≤ 2 := by
  unfold perfCloudAdj; split_ifs <;> decide

/-! ## Bounds of the three scorers and the aggregate -/

theorem calcSafety_nonneg (i : SwimInputs) : 0 ≤ calcSafety i := by
  unfold calcSafety
  split_ifs <;> first | decide | exact le_max_right _ 0

theorem calcSafety_le_60 (i : SwimInputs) : calcSafety i ≤ 60 := by
  unfold calcSafety
  split_ifs <;> first
    | decide
    | exact max_le
        (by
          have h1 := safetyWindAdj_le i.windSpeed
          have h2 := safetyPrecipAdj_le i.precipAmount i.precipLast24h
          have h3 := safetyVisAdj_le i.visibility
          have h4 := safetySstAdj_le i.sst
          have h5 := safetyAqiAdj_le i.airQualityIndex
          omega)
        (by decide)

theorem calcComfort_nonneg (i : SwimInputs) : 0 ≤ calcComfort i :=
  le_max_right _ 0

theorem calcComfort_le_53 (i : SwimInputs) : calcComfort i ≤ 53 := by
  unfold calcComfort
  exact max_le
    (by
      have h1 := comfortTempAdj_le i.apparentTemp
      have h2 := comfortUvAdj_le i.uvIndex
      have h3 := comfortCloudAdj_le i.cloudCover
      have h4 := comfortSstAdj_le i.sst
      have h5 := comfortPrecipAdj_le i.precipAmount
      have h6 := comfortWindAdj_le i.windSpeed
      omega)
    (by decide)

theorem calcPerformance_nonneg (i : SwimInputs) : 0 ≤ calcPerformance i :=
  le_max_right _ 0

theorem calcPerformance_le_39 (i : SwimInputs) : calcPerformance i ≤ 39 := by
  unfold calcPerformance
  exact max_le
    (by
      have h1 := perfWindAdj_le i.windSpeed
      have h2 := perfSstAdj_le i.sst
      have h3 := perfAqiAdj_le i.airQualityIndex
      have h4 := perfTempAdj_le i.apparentTemp
      have h5 := perfVisAdj_le i.visibility
      have h6 := perfCloudAdj_le i.cloudCover
      omega)
    (by decide)

theorem aggregateTotal_bounds {s c p : ℤ} (hs0 : 0 ≤ s) (hs : s ≤ 60)
    (hc0 : 0 ≤ c) (hc : c ≤ 53) (hp0 : 0 ≤ p) (hp : p ≤ 39) :
    0 ≤ aggregateTotal s c p ∧ aggregateTotal s c p ≤ 54 := by
  unfold aggregateTotal
  split_ifs with h
  · omega
  · have hs' : (s : ℚ) ≤ 60 := by exact_mod_cast hs
    have hc' : (c : ℚ) ≤ 53 := by exact_mod_cast hc
    have hp' : (p : ℚ) ≤ 39 := by exact_mod_cast hp
    have hs0' : (0 : ℚ) ≤ (s : ℚ) := by exact_mod_cast hs0
    have hc0' : (0 : ℚ) ≤ (c : ℚ) := by exact_mod_cast hc0
    have hp0' : (0 : ℚ) ≤ (p : ℚ) := by exact_mod_cast hp0
    have e5 : (0.5 : ℚ) = 1 / 2 := by norm_num
    have e3 : (0.3 : ℚ) = 3 / 10 := by norm_num
    have e2 : (0.2 : ℚ) = 1 / 5 := by norm_num
    constructor
    · unfold jsRound
      exact Int.le_floor.mpr (by push_cast; rw [e5, e3, e2]; linarith)
    · unfold jsRound
      have hlt : (s : ℚ) * 0.5 + (c : ℚ) * 0.3 + (p : ℚ) * 0.2 + 1 / 2
          < ((55 : ℤ) : ℚ) := by
        push_cast; rw [e5, e3, e2]; linarith
      have := Int.floor_lt.mpr hlt
      omega

theorem totalScore_eq_aggregate (i : SwimInputs) :
    (computeSwimScore i).totalScore =
      aggregateTotal (calcSafety i) (calcComfort i) (calcPerformance i) := rfl

theorem explanation_head_eq_banner (i : SwimInputs) :
    (computeSwimScore i).explanation.head? =
      some (summaryBanner ((computeSwimScore i).totalScore)) := rfl

theorem recommendation_eq (i : SwimInputs) :
    (computeSwimScore i).recommendation =
      getRecommendation ((computeSwimScore i).totalScore) i := rfl

/-! ## Claim theorems -/

/-- C1 (counterexample): the biconditional "safety ≤ 10 ⟺ totalScore = safety"
fails: on `coincidenceInput` the safety score is 12 (> 10) and yet the weighted
formula rounds back to exactly 12, so totalScore = safety. -/
theorem safety_override_iff_cex :
    ¬(calcSafety coincidenceInput ≤ 10 ↔
      (computeSwimScore coincidenceInput).totalScore = calcSafety coincidenceInput) := by
  have hs : calcSafety coincidenceInput = 12 := by decide
  have hc : calcComfort coincidenceInput = 15 := by decide
  have hp : calcPerformance coincidenceInput = 9 := by decide
  have ht : (computeSwimScore coincidenceInput).totalScore = 12 := by
    rw [totalScore_eq_aggregate, hs, hc, hp]
    norm_num [aggregateTotal, jsRound, Int.floor_eq_iff]
  rw [ht, hs]
  decide

/-- C1 (amended): whenever the safety sub-score is ≤ 10, the weighted formula
is bypassed and totalScore equals safety exactly.  (The converse direction of
the spec's biconditional is false: with safety > 10 the rounded weighted
formula can still coincide with safety.) -/
theorem safety_override_forces_total (i : SwimInputs)
    (h : calcSafety i ≤ 10) :
    (computeSwimScore i).totalScore = calcSafety i := by
  rw [totalScore_eq_aggregate]
  unfold aggregateTotal
  rw [if_pos h]

/-- C1 witness: Scenario A has safety = 5 ≤ 10 and the override applies. -/
theorem safety_override_forces_total_witness :
    calcSafety scenarioA ≤ 10 ∧
    (computeSwimScore scenarioA).totalScore = calcSafety scenarioA :=
  ⟨by decide, safety_override_forces_total scenarioA (by decide)⟩

/-- C2: for every input the three sub-scores and the total score lie in
[0, 100]. -/
theorem scores_and_total_in_range (i : SwimInputs) :
    (0 ≤ calcSafety i ∧ calcSafety i ≤ 100) ∧
    (0 ≤ calcComfort i ∧ calcComfort i ≤ 100) ∧
    (0 ≤ calcPerformance i ∧ calcPerformance i ≤ 100) ∧
    (0 ≤ (computeSwimScore i).totalScore ∧ (computeSwimScore i).totalScore ≤ 100) := by
  have hs0 := calcSafety_nonneg i
  have hs := calcSafety_le_60 i
  have hc0 := calcComfort_nonneg i
  have hc := calcComfort_le_53 i
  have hp0 := calcPerformance_nonneg i
  have hp := calcPerformance_le_39 i
  have ht := aggregateTotal_bounds hs0 hs hc0 hc hp0 hp
  rw [totalScore_eq_aggregate]
  omega

/-- C3: a weatherCode containing "thunderstorm" or equal to "95" forces
safety = 5 regardless of every other field; consequently totalScore = 5, the
recommendation is the danger string and the first explanation entry is the
negative banner. -/
theorem storm_code_forces_hazard_floor (i : SwimInputs)
    (h : isStormCode i.weatherCode = true) :
    calcSafety i = 5 ∧ (computeSwimScore i).totalScore = 5 ∧
    (computeSwimScore i).recommendation =
      "DANGER: Do not swim - thunderstorm activity detected!" ∧
    (computeSwimScore i).explanation.head? = some negativeBanner := by
  have hs : calcSafety i = 5 := by
    unfold calcSafety; rw [if_pos h]
  have ht : (computeSwimScore i).totalScore = 5 := by
    rw [totalScore_eq_aggregate, hs]
    unfold aggregateTotal
    rw [if_pos (by decide)]
  have hr : (computeSwimScore i).recommendation =
      "DANGER: Do not swim - thunderstorm activity detected!" := by
    rw [recommendation_eq]
    unfold getRecommendation
    rw [if_pos h]
  have hh : (computeSwimScore i).explanation.head? = some negativeBanner := by
    rw [explanation_head_eq_banner, ht]
    decide
  exact ⟨hs, ht, hr, hh⟩

/-- C3 witness: Scenario A (weatherCode "95", everything else normal). -/
theorem storm_code_forces_hazard_floor_witness :
    isStormCode scenarioA.weatherCode = true ∧
    (calcSafety scenarioA = 5 ∧ (computeSwimScore scenarioA).totalScore = 5 ∧
     (computeSwimScore scenarioA).recommendation =
       "DANGER: Do not swim - thunderstorm activity detected!" ∧
     (computeSwimScore scenarioA).explanation.head? = some negativeBanner) :=
  ⟨by decide, storm_code_forces_hazard_floor scenarioA (by decide)⟩

/-- C4: `buildExplanation` always returns a non-empty list whose first element
is exactly the banner selected by the total-score thresholds 80 and 50. -/
theorem explanation_head_is_total_banner (s c p : ℤ) (i : SwimInputs) (t : ℤ) :
    buildExplanation s c p i t ≠ [] ∧
    (buildExplanation s c p i t).head? =
      some (if t ≥ 80 then positiveBanner
            else if t ≥ 50 then cautiousBanner
            else negativeBanner) :=
  ⟨List.cons_ne_nil _ _, rfl⟩

/-- C5: the sub-scores are capped at 60 / 53 / 39, the total never exceeds 54,
and hence the total ≥ 80 branches (positive banner, go-ahead recommendation)
are unreachable through the pipeline. -/
theorem total_capped_at_54_positive_unreachable (i : SwimInputs) :
    calcSafety i ≤ 60 ∧ calcComfort i ≤ 53 ∧ calcPerformance i ≤ 39 ∧
    (computeSwimScore i).totalScore ≤ 54 ∧
    (computeSwimScore i).explanation.head? ≠ some positiveBanner ∧
    (computeSwimScore i).recommendation ≠ "Go ahead! Enjoy your swim." := by
  have hs0 := calcSafety_nonneg i
  have hs := calcSafety_le_60 i
  have hc0 := calcComfort_nonneg i
  have hc := calcComfort_le_53 i
  have hp0 := calcPerformance_nonneg i
  have hp := calcPerformance_le_39 i
  have ht54 : (computeSwimScore i).totalScore ≤ 54 := by
    rw [totalScore_eq_aggregate]
    exact (aggregateTotal_bounds hs0 hs hc0 hc hp0 hp).2
  refine ⟨hs, hc, hp, ht54, ?_, ?_⟩
  · rw [explanation_head_eq_banner]
    intro hcontra
    have hb : summaryBanner ((computeSwimScore i).totalScore) = positiveBanner :=
      Option.some.inj hcontra
    unfold summaryBanner at hb
    rw [if_neg (by omega)] at hb
    split_ifs at hb <;> exact absurd hb (by decide)
  · rw [recommendation_eq]
    unfold getRecommendation
    split_ifs <;> first | decide | omega

/-- C6: `getRecommendation` evaluates its guards in order — storm code first,
then windSpeed ≥ 40, then sst < 15 — with first match winning; in particular
with no storm code, windSpeed < 40 and sst < 15 it returns the unsafe-cold
string for every total score. -/
theorem recommendation_guard_order (t : ℤ) (i : SwimInputs) :
    (isStormCode i.weatherCode = true →
      getRecommendation t i = "DANGER: Do not swim - thunderstorm activity detected!") ∧
    (isStormCode i.weatherCode = false → 40 ≤ i.windSpeed →
      getRecommendation t i = "Unsafe: Extreme wind conditions - avoid swimming.") ∧
    (isStormCode i.weatherCode = false → i.windSpeed < 40 → i.sst < 15 →
      getRecommendation t i = "Unsafe: Water temperature too cold - risk of hypothermia.") := by
  refine ⟨fun h => ?_, fun h hw => ?_, fun h hw hs => ?_⟩
  · unfold getRecommendation; rw [if_pos h]
  · unfold getRecommendation
    rw [if_neg (by simp [h]), if_pos hw]
  · unfold getRecommendation
    rw [if_neg (by simp [h]), if_neg (not_le.mpr hw), if_pos hs]

/-- C6 witness: the three guards observed at concrete inputs — Scenario A
(storm), a 45 km/h wind input, and Scenario C (12 °C water) — each with a
total of 90 that the guards override. -/
theorem recommendation_guard_order_witness :
    getRecommendation 90 scenarioA = "DANGER: Do not swim - thunderstorm activity detected!" ∧
    getRecommendation 90 windyInput = "Unsafe: Extreme wind conditions - avoid swimming." ∧
    getRecommendation 90 scenarioC = "Unsafe: Water temperature too cold - risk of hypothermia." :=
  ⟨(recommendation_guard_order 90 scenarioA).1 (by decide),
   (recommendation_guard_order 90 windyInput).2.1 (by decide) (by decide),
   (recommendation_guard_order 90 scenarioC).2.2 (by decide) (by decide) (by decide)⟩

/-- C7: with every other field held fixed, `calcSafety` is monotonically
non-increasing in windSpeed on the range 10–35 km/h. -/
theorem calcSafety_windSpeed_antitone (i : SwimInputs) (w1 w2 : ℚ)
    (h1 : 10 ≤ w1) (h12 : w1 ≤ w2) (h2 : w2 ≤ 35) :
    calcSafety { i with windSpeed := w2 } ≤ calcSafety { i with windSpeed := w1 } := by
  unfold calcSafety
  dsimp only
  have e1 : (w2 ≥ 50 ∨ i.windGust ≥ 60) ↔ (i.windGust ≥ 60) := or_iff_right (by linarith)
  have e2 : (w1 ≥ 50 ∨ i.windGust ≥ 60) ↔ (i.windGust ≥ 60) := or_iff_right (by linarith)
  have e3 : (w2 ≥ 40 ∨ i.windGust ≥ 50) ↔ (i.windGust ≥ 50) := or_iff_right (by linarith)
  have e4 : (w1 ≥ 40 ∨ i.windGust ≥ 50) ↔ (i.windGust ≥ 50) := or_iff_right (by linarith)
  simp only [e1, e2, e3, e4]
  have hadj : safetyWindAdj w2 ≤ safetyWindAdj w1 := by
    unfold safetyWindAdj
    split_ifs <;> first | decide | (exfalso; linarith)
  split_ifs <;> first
    | decide
    | exact max_le_max (by omega) le_rfl

/-- C7 witness: raising windSpeed from 15 to 30 km/h on the Scenario B
baseline does not increase the safety score. -/
theorem calcSafety_windSpeed_antitone_witness :
    (10 : ℚ) ≤ 15 ∧ (15 : ℚ) ≤ 30 ∧ (30 : ℚ) ≤ 35 ∧
    calcSafety { scenarioB with windSpeed := 30 } ≤
      calcSafety { scenarioB with windSpeed := 15 } :=
  ⟨by decide, by decide, by decide,
   calcSafety_windSpeed_antitone scenarioB 15 30 (by decide) (by decide) (by decide)⟩

/-- C8: Scenario B yields exactly safety 60, comfort 53, performance 37,
total 53, and the cautious banner first. -/
theorem scenarioB_exact_scores :
    calcSafety scenarioB = 60 ∧ calcComfort scenarioB = 53 ∧
    calcPerformance scenarioB = 37 ∧
    (computeSwimScore scenarioB).totalScore = 53 ∧
    (computeSwimScore scenarioB).explanation.head? = some cautiousBanner := by
  have hs : calcSafety scenarioB = 60 := by decide
  have hc : calcComfort scenarioB = 53 := by decide
  have hp : calcPerformance scenarioB = 37 := by decide
  have ht : (computeSwimScore scenarioB).totalScore = 53 := by
    rw [totalScore_eq_aggregate, hs, hc, hp]
    norm_num [aggregateTotal, jsRound, Int.floor_eq_iff]
  refine ⟨hs, hc, hp, ht, ?_⟩
  rw [explanation_head_eq_banner, ht]
  decide

/-- A present field of kind `kind` is exactly what the `typeof` probe sees. -/
theorem typeof_field_eq_iff (m : List (String × JSValue)) (k kind : String)
    (hk : kind ≠ "undefined") :
    jsTypeofField (JSValue.vobj m) k = kind ↔ specFieldKind m k kind := by
  unfold jsTypeofField jsGet specFieldKind
  cases h : m.lookup k with
  | none => simp [h, Ne.symm hk]
  | some v => simp [h]

/-- C9: `validateInputs` accepts a value exactly when it is a (non-null)
object carrying all twelve named fields with the correct primitive kinds —
eleven numbers and the string `weatherCode`; any non-object, missing field, or
numeric `weatherCode` is rejected. -/
theorem validateInputs_iff_spec (d : JSValue) :
    validateInputs d = true ↔ specValidInputs d := by
  cases d with
  | vobj m =>
    have h01 := typeof_field_eq_iff m "windSpeed" "number" (by decide)
    have h02 := typeof_field_eq_iff m "windGust" "number" (by decide)
    have h03 := typeof_field_eq_iff m "windDirection" "number" (by decide)
    have h04 := typeof_field_eq_iff m "weatherCode" "string" (by decide)
    have h05 := typeof_field_eq_iff m "precipAmount" "number" (by decide)
    have h06 := typeof_field_eq_iff m "precipLast24h" "number" (by decide)
    have h07 := typeof_field_eq_iff m "visibility" "number" (by decide)
    have h08 := typeof_field_eq_iff m "airQualityIndex" "number" (by decide)
    have h09 := typeof_field_eq_iff m "uvIndex" "number" (by decide)
    have h10 := typeof_field_eq_iff m "cloudCover" "number" (by decide)
    have h11 := typeof_field_eq_iff m "apparentTemp" "number" (by decide)
    have h12 := typeof_field_eq_iff m "sst" "number" (by decide)
    simp [validateInputs, jsTypeof, isNullValue, specValidInputs,
      Bool.and_eq_true, beq_iff_eq, h01, h02, h03, h04, h05, h06, h07, h08,
      h09, h10, h11, h12, and_assoc]
  | vnull => simp [validateInputs, isNullValue, specValidInputs]
  | vbool b =>
    simp [show validateInputs (JSValue.vbool b) = false from rfl, specValidInputs]
  | vnum q =>
    simp [show validateInputs (JSValue.vnum q) = false from rfl, specValidInputs]
  | vstr s =>
    simp [show validateInputs (JSValue.vstr s) = false from rfl, specValidInputs]
  | varr l =>
    simp [show validateInputs (JSValue.varr l) = false from rfl, specValidInputs]

/-- C10: the validator checks only primitive kinds, never value ranges: the
payload with negative windSpeed and precipitation, windDirection 400 and
cloudCover 150 passes validation, narrows to a `SwimInputs`, and the pipeline
still produces an output record (safety 60, comfort 45, performance 37,
total 51). -/
theorem validateInputs_ignores_value_ranges :
    validateInputs outOfRangePayload = true ∧
    jsToInputs outOfRangePayload = some outOfRangeInputs ∧
    (outOfRangeInputs.windSpeed < 0 ∧ outOfRangeInputs.precipAmount < 0 ∧
     360 < outOfRangeInputs.windDirection ∧ 100 < outOfRangeInputs.cloudCover) ∧
    (computeSwimScore outOfRangeInputs).breakdown.safety = 60 ∧
    (computeSwimScore outOfRangeInputs).breakdown.comfort = 45 ∧
    (computeSwimScore outOfRangeInputs).breakdown.performance = 37 ∧
    (computeSwimScore outOfRangeInputs).totalScore = 51 := by
  refine ⟨by decide, by decide, by decide, by decide, by decide, by decide, ?_⟩
  have hs : calcSafety outOfRangeInputs = 60 := by decide
  have hc : calcComfort outOfRangeInputs = 45 := by decide
  have hp : calcPerformance outOfRangeInputs = 37 := by decide
  rw [totalScore_eq_aggregate, hs, hc, hp]
  norm_num [aggregateTotal, jsRound, Int.floor_eq_iff]
